import Mathlib

/-!
Shallow embedding of the YOLOv8 object-detection API (`src/api/main.py`).

The detection request pipeline (`detect_objects`) is embedded as a pure
function over explicit state: the global model slot, the image codec, the
success of the artifact write, and the current content of the persisted
annotated-image file are all passed in, and the outcome records the
response together with the new file content and which collaborators ran.

Scores and thresholds are rationals; box coordinates are rationals that
the aggregation step truncates to integers exactly as Python `int` does
(truncation toward zero).
-/

namespace YoloApi

/-- Raw uploaded bytes of the image file. -/
abbrev ByteStream := List ℕ

/-- A decoded image, normalized to three-channel RGB
(PIL `Image` after the `convert("RGB")` step in `detect_objects`). -/
structure PixelBuffer where
  width : ℕ
  height : ℕ
  pixels : List (ℕ × ℕ × ℕ)
  deriving DecidableEq

/-- One raw candidate detection as the model reports it: corner
coordinates in `xyxy` order, a confidence score, and a class id
(`box.xyxy[0]`, `box.conf[0]`, `box.cls[0]` in the source). -/
structure RawBox where
  x1 : ℚ
  y1 : ℚ
  x2 : ℚ
  y2 : ℚ
  score : ℚ
  clsId : ℕ
  deriving DecidableEq

/-- Modelled from the spec: the Detector (the ultralytics YOLO model,
external to `src/`) is a process-wide instance mapping a pixel buffer to
a list of candidate detections, together with a class-id → label lookup
(`result.names`). -/
structure YOLOModel where
  forward : PixelBuffer → List RawBox
  names : ℕ → String

/-- Modelled from the spec: `model(img, conf=t)` retains exactly the
candidate objects whose confidence score is ≥ the threshold, the
boundary being inclusive (spec §4.2), in the order the model produced
them. -/
def infer (m : YOLOModel) (img : PixelBuffer) (t : ℚ) : List RawBox :=
  (m.forward img).filter (fun b => decide (t ≤ b.score))

/-- Python `int()` applied to a float: truncation toward zero. -/
def pyInt (q : ℚ) : ℤ :=
  if 0 ≤ q then ⌊q⌋ else ⌈q⌉

/-- Python `round(x, 2)` numerator: round half to even at the integer
scale. -/
def roundHalfEven (q : ℚ) : ℤ :=
  let f := ⌊q⌋
  let r := q - (f : ℚ)
  if r < 1 / 2 then f
  else if 1 / 2 < r then f + 1
  else if f % 2 = 0 then f else f + 1

/-- Python `round(score, 2)`: the score rounded to two decimal places. -/
def round2 (q : ℚ) : ℚ :=
  (roundHalfEven (q * 100) : ℚ) / 100

/-- One public detection record as placed in the JSON response body:
`{"box": [int(x_min), int(y_min), int(x_max), int(y_max)], "label": label,
"score": round(score, 2)}`. -/
structure Detection where
  xmin : ℤ
  ymin : ℤ
  xmax : ℤ
  ymax : ℤ
  label : String
  score : ℚ
  deriving DecidableEq

/-- The body of the loop over `boxes` in `detect_objects`: truncate the
corner coordinates to integers, resolve the class id to a label, and
round the reported score to two decimals. -/
def mkDetection (names : ℕ → String) (b : RawBox) : Detection :=
  { xmin := pyInt b.x1
    ymin := pyInt b.y1
    xmax := pyInt b.x2
    ymax := pyInt b.y2
    label := names b.clsId
    score := round2 b.score }

/-- Python `class_counts[label] += 1` on a `defaultdict(int)`: increment the
entry of `l` if present, otherwise append a fresh entry with count 1
(Python dicts keep first-insertion key order). -/
def bump : List (String × ℕ) → String → List (String × ℕ)
  | [], l => [(l, 1)]
  | (k, c) :: rest, l =>
      if k = l then (k, c + 1) :: rest else (k, c) :: bump rest l

/-- The `class_counts` mapping accumulated over the detection loop, in
encounter order of the labels. -/
def classCounts (labels : List String) : List (String × ℕ) :=
  labels.foldl bump []

/-- Reading `class_counts[k]` from the association list (0 when absent,
as for a `defaultdict(int)`). -/
def lookupCount : List (String × ℕ) → String → ℕ
  | [], _ => 0
  | (k, c) :: rest, l => if k = l then c else lookupCount rest l

/-- The annotated artifact: `results[0].plot()` renders the filtered
boxes onto a copy of the input image; the pair records image and
overlay content. -/
structure Artifact where
  base : PixelBuffer
  overlay : List RawBox
  deriving DecidableEq

/-- A caller-facing error: HTTP status code plus human-readable detail
(`HTTPException(status_code=..., detail=...)`). -/
structure ApiError where
  status : ℕ
  detail : String
  deriving DecidableEq

/-- The success response body: `{"detections": [...], "summary": {...}}`. -/
structure DetectResponse where
  detections : List Detection
  summary : List (String × ℕ)
  deriving DecidableEq

/-- Everything one call of `detect_objects` does: the HTTP result, whether
the Detector was invoked, whether the Artifact Sink was invoked, and the
content of the persisted annotated-image file after the call. -/
structure Outcome where
  result : Except ApiError DetectResponse
  detectorInvoked : Bool
  sinkInvoked : Bool
  artifact : Option Artifact

/-- The `/detect` handler (`detect_objects` in `src/api/main.py`).

`model` is the global model slot (`None` until startup succeeds);
`decode` is the image codec (`Image.open` + `convert("RGB")`, `none` when
PIL raises); `saveOk` tells whether the `annotated_pil.save` call
succeeds; `art0` is the prior content of `OUTPUT_DIR/last_annotated.jpg`.

The order of the steps mirrors the source: the model check (line 64)
precedes threshold validation (line 69), which precedes decoding
(lines 76-87), inference (line 91), aggregation (lines 94-120) and the
artifact write (lines 122-131). A failing write raises out of the
generic `except Exception` handler as a 500 (lines 144-146). -/
def detect_objects (model : Option YOLOModel)
    (decode : ByteStream → Option PixelBuffer) (saveOk : Bool)
    (art0 : Option Artifact) (imageBytes : ByteStream)
    (confidence_threshold : ℚ) : Outcome :=
  match model with
  | none =>
      { result := .error ⟨503, "Model not loaded"⟩
        detectorInvoked := false
        sinkInvoked := false
        artifact := art0 }
  | some m =>
      if 0 ≤ confidence_threshold ∧ confidence_threshold ≤ 1 then
        match decode imageBytes with
        | none =>
            { result := .error ⟨400, "Invalid image file"⟩
              detectorInvoked := false
              sinkInvoked := false
              artifact := art0 }
        | some img =>
            let raw := infer m img confidence_threshold
            let detections := raw.map (mkDetection m.names)
            let summary := classCounts (detections.map Detection.label)
            if saveOk then
              { result := .ok ⟨detections, summary⟩
                detectorInvoked := true
                sinkInvoked := true
                artifact := some ⟨img, raw⟩ }
            else
              { result := .error ⟨500, "Detection failed"⟩
                detectorInvoked := true
                sinkInvoked := true
                artifact := art0 }
      else
        { result := .error ⟨400, "confidence_threshold must be between 0.0 and 1.0"⟩
          detectorInvoked := false
          sinkInvoked := false
          artifact := art0 }

/-- The `/health` handler (`health_check` in `src/api/main.py`): it takes
the server state (the global model slot) but never inspects it. -/
structure HealthResponse where
  status : String
  deriving DecidableEq

/-- The endpoint returns `{"status": "ok"}` unconditionally. -/
def health_check (_model : Option YOLOModel) : HealthResponse :=
  ⟨"ok"⟩

/-- Line 23, `CONFIDENCE_THRESHOLD_DEFAULT = float(os.getenv(..., "0.25"))`:
the environment value when set, 0.25 otherwise. -/
def CONFIDENCE_THRESHOLD_DEFAULT (env : Option ℚ) : ℚ :=
  env.getD (1 / 4)

/-- FastAPI form binding `confidence_threshold: float =
Form(CONFIDENCE_THRESHOLD_DEFAULT)`: the supplied field when present,
the configured default otherwise. -/
def resolveThreshold (env : Option ℚ) (supplied : Option ℚ) : ℚ :=
  supplied.getD (CONFIDENCE_THRESHOLD_DEFAULT env)

/-- A full request as received over HTTP: form defaulting followed by the
pipeline. -/
def handleRequest (env : Option ℚ) (model : Option YOLOModel)
    (decode : ByteStream → Option PixelBuffer) (saveOk : Bool)
    (art0 : Option Artifact) (imageBytes : ByteStream)
    (supplied : Option ℚ) : Outcome :=
  detect_objects model decode saveOk art0 imageBytes
    (resolveThreshold env supplied)

/-! ### Concrete instances used to exercise the pipeline -/

/-- A one-pixel decoded RGB image. -/
def pb0 : PixelBuffer := ⟨1, 1, [(0, 0, 0)]⟩

/-- A codec that decodes every byte stream to `pb0`. -/
def decOk : ByteStream → Option PixelBuffer := fun _ => some pb0

/-- A codec that rejects every byte stream (PIL raising on any input). -/
def decFail : ByteStream → Option PixelBuffer := fun _ => none

/-- A raw candidate of class 0 with confidence 1. -/
def rb1 : RawBox := ⟨0, 0, 1, 1, 1, 0⟩

/-- A raw candidate of class 1 with confidence 0. -/
def rb0 : RawBox := ⟨0, 0, 1, 1, 0, 1⟩

/-- A concrete model: two candidates on every image, class 0 named
"person" and class 1 named "dog". -/
def mdl : YOLOModel :=
  ⟨fun _ => [rb1, rb0], fun i => if i = 0 then "person" else "dog"⟩

/-- The public record of `rb1` under `mdl`. -/
def dPerson : Detection := ⟨0, 0, 1, 1, "person", 1⟩

/-- The public record of `rb0` under `mdl`. -/
def dDog : Detection := ⟨0, 0, 1, 1, "dog", 0⟩

/-- The response of `mdl` on `pb0` at threshold 1. -/
def respT1 : DetectResponse := ⟨[dPerson], [("person", 1)]⟩

/-- The response of `mdl` on `pb0` at threshold 0. -/
def respT0 : DetectResponse :=
  ⟨[dPerson, dDog], [("person", 1), ("dog", 1)]⟩

/-- A prior artifact-file content. -/
def art1 : Artifact := ⟨pb0, []⟩

/-! ### Lemmas about the `class_counts` accumulator -/

lemma lookupCount_bump (cs : List (String × ℕ)) (l k : String) :
    lookupCount (bump cs l) k =
      if k = l then lookupCount cs k + 1 else lookupCount cs k := by
  induction cs with
  | nil =>
      simp only [bump, lookupCount]
      by_cases h : k = l
      · subst h; simp
      · have h' : ¬ l = k := fun hh => h hh.symm
        simp [h, h']
  | cons p rest ih =>
      obtain ⟨k', c⟩ := p
      by_cases h1 : k' = l
      · subst h1
        simp only [bump, if_pos rfl, lookupCount]
        by_cases h2 : k' = k
        · subst h2; simp
        · have h3 : ¬ k = k' := fun hh => h2 hh.symm
          simp [h2, h3]
      · simp only [bump, if_neg h1, lookupCount]
        by_cases h2 : k' = k
        · subst h2
          simp [fun hh : k' = l => h1 hh]
        · simp [h2, ih]

lemma bump_pos (cs : List (String × ℕ)) (l : String)
    (h : ∀ p ∈ cs, 0 < p.2) : ∀ p ∈ bump cs l, 0 < p.2 := by
  induction cs with
  | nil =>
      intro p hp
      simp only [bump, List.mem_singleton] at hp
      subst hp; exact Nat.one_pos
  | cons q rest ih =>
      obtain ⟨k, c⟩ := q
      intro p hp
      by_cases h1 : k = l
      · simp only [bump, if_pos h1, List.mem_cons] at hp
        rcases hp with hp | hp
        · subst hp; exact Nat.succ_pos c
        · exact h p (List.mem_cons_of_mem _ hp)
      · simp only [bump, if_neg h1, List.mem_cons] at hp
        rcases hp with hp | hp
        · subst hp; exact h (k, c) (List.mem_cons_self _ _)
        · exact ih (fun q hq => h q (List.mem_cons_of_mem _ hq)) p hp

lemma keys_bump (cs : List (String × ℕ)) (l : String) :
    (bump cs l).map Prod.fst =
      if l ∈ cs.map Prod.fst then cs.map Prod.fst
      else cs.map Prod.fst ++ [l] := by
  induction cs with
  | nil => simp [bump]
  | cons q rest ih =>
      obtain ⟨k, c⟩ := q
      by_cases h1 : k = l
      · subst h1
        simp [bump]
      · have h3 : ¬ l = k := fun hh => h1 hh.symm
        simp only [bump, if_neg h1, List.map_cons, ih]
        by_cases h2 : l ∈ rest.map Prod.fst
        · simp [h2, h3]
        · simp [h2, h3]

lemma keys_nodup_bump (cs : List (String × ℕ)) (l : String)
    (h : (cs.map Prod.fst).Nodup) : ((bump cs l).map Prod.fst).Nodup := by
  rw [keys_bump]
  by_cases hm : l ∈ cs.map Prod.fst
  · simpa [hm] using h
  · simp only [if_neg hm, List.nodup_append]
    exact ⟨h, List.nodup_singleton l,
      fun a ha hal => hm ((List.mem_singleton.mp hal) ▸ ha)⟩

lemma lookupCount_of_mem (cs : List (String × ℕ)) (p : String × ℕ)
    (hnd : (cs.map Prod.fst).Nodup) (hp : p ∈ cs) :
    lookupCount cs p.1 = p.2 := by
  induction cs with
  | nil => cases hp
  | cons q rest ih =>
      obtain ⟨k, c⟩ := q
      rcases List.mem_cons.mp hp with hh | hh
      · subst hh; simp [lookupCount]
      · have hk : k ≠ p.1 := by
          intro hkp
          have : p.1 ∈ rest.map Prod.fst := List.mem_map_of_mem Prod.fst hh
          rw [List.map_cons, List.nodup_cons] at hnd
          exact hnd.1 (hkp ▸ this)
        simpa [lookupCount, hk] using ih (List.nodup_cons.mp (by simpa using hnd)).2 hh

lemma mem_keys_iff_pos (cs : List (String × ℕ)) (k : String)
    (h : ∀ p ∈ cs, 0 < p.2) :
    k ∈ cs.map Prod.fst ↔ 0 < lookupCount cs k := by
  induction cs with
  | nil => simp [lookupCount]
  | cons q rest ih =>
      obtain ⟨k', c⟩ := q
      by_cases h1 : k' = k
      · subst h1
        simpa [lookupCount] using h (k', c) (List.mem_cons_self _ _)
      · have h3 : ¬ k = k' := fun hh => h1 hh.symm
        simp only [List.map_cons, List.mem_cons, lookupCount, if_neg h1]
        rw [ih (fun p hp => h p (List.mem_cons_of_mem _ hp))]
        simp [h3]

lemma lookupCount_foldl (ls : List String) (cs : List (String × ℕ))
    (k : String) :
    lookupCount (ls.foldl bump cs) k = lookupCount cs k + ls.count k := by
  induction ls generalizing cs with
  | nil => simp
  | cons l ls ih =>
      simp only [List.foldl_cons, ih, lookupCount_bump, List.count_cons]
      by_cases h : k = l
      · subst h; simp; omega
      · have h3 : ¬ l = k := fun hh => h hh.symm
        simp [h, h3]

lemma foldl_bump_pos (ls : List String) (cs : List (String × ℕ))
    (h : ∀ p ∈ cs, 0 < p.2) : ∀ p ∈ ls.foldl bump cs, 0 < p.2 := by
  induction ls generalizing cs with
  | nil => exact h
  | cons l ls ih => exact ih (bump cs l) (bump_pos cs l h)

lemma foldl_bump_nodup (ls : List String) (cs : List (String × ℕ))
    (h : (cs.map Prod.fst).Nodup) :
    ((ls.foldl bump cs).map Prod.fst).Nodup := by
  induction ls generalizing cs with
  | nil => exact h
  | cons l ls ih => exact ih (bump cs l) (keys_nodup_bump cs l h)

lemma sum_bump (cs : List (String × ℕ)) (l : String) :
    ((bump cs l).map Prod.snd).sum = (cs.map Prod.snd).sum + 1 := by
  induction cs with
  | nil => simp [bump]
  | cons q rest ih =>
      obtain ⟨k, c⟩ := q
      by_cases h1 : k = l
      · simp [bump, h1]; omega
      · simp [bump, h1, ih]; omega

lemma sum_foldl_bump (ls : List String) (cs : List (String × ℕ)) :
    ((ls.foldl bump cs).map Prod.snd).sum = (cs.map Prod.snd).sum + ls.length := by
  induction ls generalizing cs with
  | nil => simp
  | cons l ls ih => simp [List.foldl_cons, ih, sum_bump]; omega

lemma classCounts_lookup (ls : List String) (k : String) :
    lookupCount (classCounts ls) k = ls.count k := by
  simpa [lookupCount] using lookupCount_foldl ls [] k

lemma classCounts_pos (ls : List String) :
    ∀ p ∈ classCounts ls, 0 < p.2 :=
  foldl_bump_pos ls [] (by simp)

lemma classCounts_nodup (ls : List String) :
    ((classCounts ls).map Prod.fst).Nodup :=
  foldl_bump_nodup ls [] (by simp)

lemma classCounts_count_of_mem (ls : List String) (p : String × ℕ)
    (hp : p ∈ classCounts ls) : p.2 = ls.count p.1 := by
  rw [← classCounts_lookup ls p.1]
  exact (lookupCount_of_mem _ p (classCounts_nodup ls) hp).symm

lemma classCounts_mem_keys (ls : List String) (k : String) :
    k ∈ (classCounts ls).map Prod.fst ↔ k ∈ ls := by
  rw [mem_keys_iff_pos _ _ (classCounts_pos ls), classCounts_lookup]
  exact List.count_pos_iff

lemma classCounts_sum (ls : List String) :
    ((classCounts ls).map Prod.snd).sum = ls.length := by
  simpa using sum_foldl_bump ls []

/-! ### Lemmas about truncation, inference and the pipeline -/

lemma pyInt_mono {a b : ℚ} (h : a ≤ b) : pyInt a ≤ pyInt b := by
  unfold pyInt
  by_cases ha : 0 ≤ a
  · have hb : 0 ≤ b := le_trans ha h
    simpa [ha, hb] using Int.floor_le_floor h
  · by_cases hb : 0 ≤ b
    · have h1 : (⌈a⌉ : ℤ) ≤ 0 := Int.ceil_le.mpr (by exact_mod_cast (le_of_not_le ha))
      have h2 : (0 : ℤ) ≤ ⌊b⌋ := Int.le_floor.mpr (by exact_mod_cast hb)
      simpa [ha, hb] using le_trans h1 h2
    · simpa [ha, hb] using Int.ceil_le_ceil h

lemma mem_infer_iff (m : YOLOModel) (img : PixelBuffer) (t : ℚ) (b : RawBox) :
    b ∈ infer m img t ↔ b ∈ m.forward img ∧ t ≤ b.score := by
  simp [infer, List.mem_filter]

lemma infer_length_antitone (m : YOLOModel) (img : PixelBuffer) {t1 t2 : ℚ}
    (h : t1 ≤ t2) : (infer m img t2).length ≤ (infer m img t1).length := by
  refine List.Sublist.length_le (List.monotone_filter_right _ ?_)
  intro b hb
  simp only [decide_eq_true_eq] at hb ⊢
  exact le_trans h hb

/-- The success path of `detect_objects`: a 200 response forces the
threshold to be in range, the image to decode, the artifact write to
succeed, and the payload to be exactly the aggregation of the filtered
inference output. -/
lemma detect_objects_ok (m : YOLOModel)
    (dec : ByteStream → Option PixelBuffer) (saveOk : Bool)
    (art0 : Option Artifact) (bytes : ByteStream) (t : ℚ)
    (resp : DetectResponse)
    (h : (detect_objects (some m) dec saveOk art0 bytes t).result = .ok resp) :
    (0 ≤ t ∧ t ≤ 1) ∧ saveOk = true ∧
      ∃ img, dec bytes = some img ∧
        resp.detections = (infer m img t).map (mkDetection m.names) ∧
        resp.summary =
          classCounts (((infer m img t).map (mkDetection m.names)).map
            Detection.label) := by
  by_cases hr : 0 ≤ t ∧ t ≤ 1
  · simp only [detect_objects, if_pos hr] at h
    cases hdec : dec bytes with
    | none => rw [hdec] at h; simp at h
    | some img =>
        rw [hdec] at h
        cases saveOk with
        | false => simp at h
        | true =>
            simp only [if_pos rfl, if_true] at h
            refine ⟨hr, rfl, img, rfl, ?_⟩
            cases h
            exact ⟨rfl, rfl⟩
  · simp only [detect_objects, if_neg hr] at h
    simp at h

/-- The pre-inference failure paths of `detect_objects`: with no model
loaded, with an out-of-range threshold, or with an undecodable image,
neither the Detector nor the Artifact Sink runs and the artifact file
keeps its prior content. -/
lemma detect_objects_error_early (model : Option YOLOModel)
    (dec : ByteStream → Option PixelBuffer) (saveOk : Bool)
    (art0 : Option Artifact) (bytes : ByteStream) (t : ℚ)
    (h : model = none ∨ ¬ (0 ≤ t ∧ t ≤ 1) ∨ dec bytes = none) :
    (detect_objects model dec saveOk art0 bytes t).detectorInvoked = false ∧
      (detect_objects model dec saveOk art0 bytes t).sinkInvoked = false ∧
      (detect_objects model dec saveOk art0 bytes t).artifact = art0 := by
  rcases h with h | h | h
  · subst h; simp [detect_objects]
  · cases model with
    | none => simp [detect_objects]
    | some m => simp [detect_objects, if_neg h]
  · cases model with
    | none => simp [detect_objects]
    | some m =>
        by_cases hr : 0 ≤ t ∧ t ≤ 1
        · simp [detect_objects, if_pos hr, h]
        · simp [detect_objects, if_neg hr]

/-- The status code of every failed `detect_objects` call identifies the
branch that produced it. -/
lemma detect_objects_error_cases (model : Option YOLOModel)
    (dec : ByteStream → Option PixelBuffer) (saveOk : Bool)
    (art0 : Option Artifact) (bytes : ByteStream) (t : ℚ) (e : ApiError)
    (h : (detect_objects model dec saveOk art0 bytes t).result = .error e) :
    (model = none ∧ e.status = 503) ∨
      (¬ (0 ≤ t ∧ t ≤ 1) ∧ e.status = 400) ∨
      (dec bytes = none ∧ e.status = 400) ∨
      (saveOk = false ∧ e.status = 500) := by
  cases model with
  | none =>
      left
      simp only [detect_objects] at h
      cases h
      exact ⟨rfl, rfl⟩
  | some m =>
      by_cases hr : 0 ≤ t ∧ t ≤ 1
      · simp only [detect_objects, if_pos hr] at h
        cases hdec : dec bytes with
        | none =>
            rw [hdec] at h
            simp only [] at h
            right; right; left
            cases h
            exact ⟨rfl, rfl⟩
        | some img =>
            rw [hdec] at h
            cases saveOk with
            | false =>
                right; right; right
                simp only [Bool.false_eq_true, if_false] at h
                cases h
                exact ⟨rfl, rfl⟩
            | true => simp at h
      · right; left
        simp only [detect_objects, if_neg hr] at h
        cases h
        exact ⟨hr, rfl⟩

/-! ### Concrete evaluation lemmas -/

lemma pyInt_zero : pyInt 0 = 0 := by norm_num [pyInt]

lemma pyInt_one : pyInt 1 = 1 := by norm_num [pyInt]

lemma round2_zero : round2 0 = 0 := by norm_num [round2, roundHalfEven]

lemma round2_one : round2 1 = 1 := by norm_num [round2, roundHalfEven]

lemma mk_rb1 : mkDetection mdl.names rb1 = dPerson := by
  simp [mkDetection, mdl, rb1, dPerson, pyInt_zero, pyInt_one, round2_one]

lemma mk_rb0 : mkDetection mdl.names rb0 = dDog := by
  simp [mkDetection, mdl, rb0, dDog, pyInt_zero, pyInt_one, round2_zero]

lemma infer_t1 : infer mdl pb0 1 = [rb1] := by
  norm_num [infer, mdl, rb1, rb0, List.filter_cons]

lemma infer_t0 : infer mdl pb0 0 = [rb1, rb0] := by
  norm_num [infer, mdl, rb1, rb0, List.filter_cons]

lemma detect_run_t1 :
    (detect_objects (some mdl) decOk true none [] 1).result = .ok respT1 := by
  simp only [detect_objects]
  rw [if_pos (by decide : (0:ℚ) ≤ 1 ∧ (1:ℚ) ≤ 1)]
  simp [decOk, infer_t1, mk_rb1, respT1, dPerson, classCounts, bump]

lemma detect_run_t0 :
    (detect_objects (some mdl) decOk true none [] 0).result = .ok respT0 := by
  simp only [detect_objects]
  rw [if_pos (by decide : (0:ℚ) ≤ 0 ∧ (0:ℚ) ≤ 1)]
  simp [decOk, infer_t0, mk_rb1, mk_rb0, respT0, dPerson, dDog, classCounts, bump]

lemma mdl_wellformed : ∀ b ∈ mdl.forward pb0, b.x1 ≤ b.x2 ∧ b.y1 ≤ b.y2 := by
  intro b hb
  simp only [mdl, List.mem_cons, List.not_mem_nil, or_false] at hb
  rcases hb with rfl | rfl
  · exact ⟨by norm_num [rb1], by norm_num [rb1]⟩
  · exact ⟨by norm_num [rb0], by norm_num [rb0]⟩

/-! ### Claim theorems -/

/-- C1 (counterexample): a request with threshold 2 (outside [0,1]) made
while the model is not loaded fails with 503 ServiceUnavailable, not 400
BadRequest — the model check at line 64 runs before threshold validation
at line 69, so threshold validation is not the first transition. -/
theorem C1_counterexample :
    ¬ ((0:ℚ) ≤ 2 ∧ (2:ℚ) ≤ 1) ∧
      (detect_objects none decFail true none [] 2).result =
        .error ⟨503, "Model not loaded"⟩ :=
  ⟨by decide, rfl⟩

/-- C1 (amended): whenever the model is loaded, a request whose
confidence threshold lies outside [0,1] fails as 400 BadRequest and the
Detector is never invoked; the model-availability check precedes
threshold validation, so with the model not loaded such a request fails
503 instead. -/
theorem C1_threshold_badRequest (m : YOLOModel)
    (dec : ByteStream → Option PixelBuffer) (saveOk : Bool)
    (art0 : Option Artifact) (bytes : ByteStream) (t : ℚ)
    (h : ¬ (0 ≤ t ∧ t ≤ 1)) :
    (detect_objects (some m) dec saveOk art0 bytes t).result =
      .error ⟨400, "confidence_threshold must be between 0.0 and 1.0"⟩ ∧
      (detect_objects (some m) dec saveOk art0 bytes t).detectorInvoked =
        false := by
  simp [detect_objects, if_neg h]

/-- C1 witness: threshold 2 with a loaded model gives 400 and no
Detector call. -/
theorem C1_threshold_badRequest_witness :
    ¬ ((0:ℚ) ≤ 2 ∧ (2:ℚ) ≤ 1) ∧
      ((detect_objects (some mdl) decOk true none [] 2).result =
          .error ⟨400, "confidence_threshold must be between 0.0 and 1.0"⟩ ∧
        (detect_objects (some mdl) decOk true none [] 2).detectorInvoked =
          false) :=
  ⟨by decide, C1_threshold_badRequest mdl decOk true none [] 2 (by decide)⟩

/-- C2 (counterexample): a request that reaches the Artifact Sink
(loaded model, valid threshold, decodable image) whose annotated-image
write fails is answered with 500 InternalError — the computed detections
are not returned, because the write raises into the generic
`except Exception` handler at lines 144-146. -/
theorem C2_counterexample :
    (detect_objects (some mdl) decOk false none [] 1).sinkInvoked = true ∧
      (detect_objects (some mdl) decOk false none [] 1).result =
        .error ⟨500, "Detection failed"⟩ := by
  constructor <;>
    · simp only [detect_objects]
      rw [if_pos (by decide : (0:ℚ) ≤ 1 ∧ (1:ℚ) ≤ 1)]
      simp [decOk]

/-- C2 (amended): for every request that reaches the Artifact Sink step,
a failure to write the annotated image fails the request with 500
InternalError; the detections and summary already computed are discarded
rather than returned. -/
theorem C2_saveFailure_fails (m : YOLOModel)
    (dec : ByteStream → Option PixelBuffer) (art0 : Option Artifact)
    (bytes : ByteStream) (t : ℚ) (img : PixelBuffer)
    (h1 : 0 ≤ t) (h2 : t ≤ 1) (hdec : dec bytes = some img) :
    (detect_objects (some m) dec false art0 bytes t).sinkInvoked = true ∧
      (detect_objects (some m) dec false art0 bytes t).result =
        .error ⟨500, "Detection failed"⟩ := by
  simp only [detect_objects, if_pos (And.intro h1 h2), hdec]
  simp

/-- C2 witness: a concrete run whose artifact write fails is a 500. -/
theorem C2_saveFailure_fails_witness :
    ((0:ℚ) ≤ 1 ∧ (1:ℚ) ≤ 1 ∧ decOk [] = some pb0) ∧
      ((detect_objects (some mdl) decOk false none [] 1).sinkInvoked = true ∧
        (detect_objects (some mdl) decOk false none [] 1).result =
          .error ⟨500, "Detection failed"⟩) :=
  ⟨⟨by decide, by decide, rfl⟩,
    C2_saveFailure_fails mdl decOk none [] 1 pb0 (by decide) (by decide) rfl⟩

/-- C3 (counterexample): with the model not loaded, the health check
still reports "ok" — it never reports unavailable, and its answer does
not depend on the model slot at all. -/
theorem C3_counterexample :
    health_check none = ⟨"ok"⟩ ∧ health_check none = health_check (some mdl) :=
  ⟨rfl, rfl⟩

/-- C3 (amended): the health-check endpoint is side-effect-free and
independent of the detection pipeline, but it does not report whether
the Detector is loaded: it returns status "ok" for every state of the
model slot, including the unloaded one. -/
theorem C3_health_always_ok :
    ∀ model : Option YOLOModel, health_check model = ⟨"ok"⟩ :=
  fun _ => rfl

/-- C4: every detection in a successful response arises from a raw model
candidate whose raw (unrounded) score is ≥ the request threshold, the
boundary being inclusive, and its integer box coordinates satisfy
xmin ≤ xmax and ymin ≤ ymax whenever the model's raw boxes are ordered
(xyxy corner order). -/
theorem C4_detections_filtered_wellformed (m : YOLOModel)
    (dec : ByteStream → Option PixelBuffer) (saveOk : Bool)
    (art0 : Option Artifact) (bytes : ByteStream) (t : ℚ)
    (img : PixelBuffer) (resp : DetectResponse)
    (hdec : dec bytes = some img)
    (hwf : ∀ b ∈ m.forward img, b.x1 ≤ b.x2 ∧ b.y1 ≤ b.y2)
    (hok : (detect_objects (some m) dec saveOk art0 bytes t).result =
      .ok resp) :
    ∀ d ∈ resp.detections, ∃ b ∈ m.forward img,
      t ≤ b.score ∧ d = mkDetection m.names b ∧
        d.xmin ≤ d.xmax ∧ d.ymin ≤ d.ymax := by
  obtain ⟨-, -, img', hdec', hdets, -⟩ :=
    detect_objects_ok m dec saveOk art0 bytes t resp hok
  rw [hdec] at hdec'
  injection hdec' with himg
  subst himg
  intro d hd
  rw [hdets] at hd
  obtain ⟨b, hb, rfl⟩ := List.mem_map.mp hd
  obtain ⟨hbf, hbs⟩ := (mem_infer_iff m img t b).mp hb
  exact ⟨b, hbf, hbs, rfl,
    by simpa [mkDetection] using pyInt_mono (hwf b hbf).1,
    by simpa [mkDetection] using pyInt_mono (hwf b hbf).2⟩

/-- C4 witness: the single detection of the threshold-1 run comes from a
raw candidate scoring exactly 1 (kept at the inclusive boundary) with an
ordered box. -/
theorem C4_detections_filtered_wellformed_witness :
    ((detect_objects (some mdl) decOk true none [] 1).result = .ok respT1 ∧
        dPerson ∈ respT1.detections) ∧
      ∃ b ∈ mdl.forward pb0, (1:ℚ) ≤ b.score ∧
        dPerson = mkDetection mdl.names b ∧
          dPerson.xmin ≤ dPerson.xmax ∧ dPerson.ymin ≤ dPerson.ymax :=
  ⟨⟨detect_run_t1, by simp [respT1]⟩,
    C4_detections_filtered_wellformed mdl decOk true none [] 1 pb0 respT1
      rfl mdl_wellformed detect_run_t1 dPerson (by simp [respT1])⟩

/-- C5: in every successful response, the summary count attached to a
label equals the number of detection records of that response whose
label field equals it; the summary is computed from that single run's
detection list alone. -/
theorem C5_summary_counts (m : YOLOModel)
    (dec : ByteStream → Option PixelBuffer) (saveOk : Bool)
    (art0 : Option Artifact) (bytes : ByteStream) (t : ℚ)
    (resp : DetectResponse)
    (hok : (detect_objects (some m) dec saveOk art0 bytes t).result =
      .ok resp) :
    ∀ p ∈ resp.summary,
      p.2 = (resp.detections.map Detection.label).count p.1 := by
  obtain ⟨-, -, img, -, hdets, hsum⟩ :=
    detect_objects_ok m dec saveOk art0 bytes t resp hok
  intro p hp
  rw [hsum] at hp
  rw [hdets]
  exact classCounts_count_of_mem _ p hp

/-- C5 witness: in the threshold-0 run the summary entry ("dog", 1)
equals the number of detections labelled "dog". -/
theorem C5_summary_counts_witness :
    ((detect_objects (some mdl) decOk true none [] 0).result = .ok respT0 ∧
        ("dog", 1) ∈ respT0.summary) ∧
      (("dog", 1) : String × ℕ).2 =
        (respT0.detections.map Detection.label).count ("dog", 1).1 :=
  ⟨⟨detect_run_t0, by simp [respT0]⟩,
    C5_summary_counts mdl decOk true none [] 0 respT0 detect_run_t0
      ("dog", 1) (by simp [respT0])⟩

/-- C6: for a fixed model, codec and image, the number of detections of
a successful run is antitone in the threshold: a run at the lower
threshold returns at least as many detections as one at the higher. -/
theorem C6_detections_antitone (m : YOLOModel)
    (dec : ByteStream → Option PixelBuffer) (saveOk : Bool)
    (art0 : Option Artifact) (bytes : ByteStream) (t1 t2 : ℚ)
    (r1 r2 : DetectResponse) (h12 : t1 ≤ t2)
    (h1 : (detect_objects (some m) dec saveOk art0 bytes t1).result =
      .ok r1)
    (h2 : (detect_objects (some m) dec saveOk art0 bytes t2).result =
      .ok r2) :
    r2.detections.length ≤ r1.detections.length := by
  obtain ⟨-, -, img1, hd1, hdets1, -⟩ :=
    detect_objects_ok m dec saveOk art0 bytes t1 r1 h1
  obtain ⟨-, -, img2, hd2, hdets2, -⟩ :=
    detect_objects_ok m dec saveOk art0 bytes t2 r2 h2
  rw [hd1] at hd2
  injection hd2 with himg
  subst himg
  rw [hdets1, hdets2]
  simpa [List.length_map] using infer_length_antitone m img1 h12

/-- C6 witness: lowering the threshold from 1 to 0 grows the run from
one detection to two. -/
theorem C6_detections_antitone_witness :
    ((0:ℚ) ≤ 1 ∧
        (detect_objects (some mdl) decOk true none [] 0).result =
          .ok respT0 ∧
        (detect_objects (some mdl) decOk true none [] 1).result =
          .ok respT1) ∧
      respT1.detections.length ≤ respT0.detections.length :=
  ⟨⟨by decide, detect_run_t0, detect_run_t1⟩,
    C6_detections_antitone mdl decOk true none [] 0 1 respT0 respT1
      (by decide) detect_run_t0 detect_run_t1⟩

/-- C7: the pipeline is deterministic: two calls of `detect_objects`
with the same model, codec, artifact-write behaviour, prior artifact,
image bytes and threshold produce the same result — in particular
identical detection lists (boxes, labels, scores) and summaries. -/
theorem C7_deterministic (model : Option YOLOModel)
    (dec : ByteStream → Option PixelBuffer) (saveOk : Bool)
    (art0 : Option Artifact) (bytes : ByteStream) (t : ℚ)
    (o1 o2 : Outcome)
    (h1 : o1 = detect_objects model dec saveOk art0 bytes t)
    (h2 : o2 = detect_objects model dec saveOk art0 bytes t) :
    o1.result = o2.result := by
  rw [h1, h2]

/-- C7 witness: two identical concrete calls agree. -/
theorem C7_deterministic_witness :
    (detect_objects (some mdl) decOk true none [] 1 =
        detect_objects (some mdl) decOk true none [] 1) ∧
      (detect_objects (some mdl) decOk true none [] 1).result =
        (detect_objects (some mdl) decOk true none [] 1).result :=
  ⟨rfl, C7_deterministic (some mdl) decOk true none [] 1 _ _ rfl rfl⟩

/-- C8 (counterexample): with the environment variable
CONFIDENCE_THRESHOLD_DEFAULT set to 2, a request that omits the
confidence_threshold field runs the pipeline with threshold 2,
not 0.25. -/
theorem C8_counterexample :
    resolveThreshold (some 2) none = 2 ∧ (2 : ℚ) ≠ 1/4 ∧
      handleRequest (some 2) (some mdl) decOk true none [] none =
        detect_objects (some mdl) decOk true none [] 2 :=
  ⟨rfl, by norm_num, rfl⟩

/-- C8 (amended): a request that omits the confidence_threshold field
runs the pipeline with the configured default
CONFIDENCE_THRESHOLD_DEFAULT — the value of the environment variable of
that name when set — and that default equals 0.25 exactly when the
variable is unset. -/
theorem C8_default_threshold :
    (∀ (env : Option ℚ) (model : Option YOLOModel)
        (dec : ByteStream → Option PixelBuffer) (saveOk : Bool)
        (art0 : Option Artifact) (bytes : ByteStream),
        handleRequest env model dec saveOk art0 bytes none =
          detect_objects model dec saveOk art0 bytes
            (CONFIDENCE_THRESHOLD_DEFAULT env)) ∧
      CONFIDENCE_THRESHOLD_DEFAULT none = 1/4 :=
  ⟨fun _ _ _ _ _ _ => rfl, rfl⟩

/-- C9: every request that fails with 400 BadRequest (out-of-range
threshold or undecodable image) or 503 ServiceUnavailable (model not
loaded) never invokes the Artifact Sink, and the persisted
annotated-image file keeps its prior content. -/
theorem C9_failed_request_preserves_artifact (model : Option YOLOModel)
    (dec : ByteStream → Option PixelBuffer) (saveOk : Bool)
    (art0 : Option Artifact) (bytes : ByteStream) (t : ℚ) (e : ApiError)
    (herr : (detect_objects model dec saveOk art0 bytes t).result =
      .error e)
    (hstatus : e.status = 400 ∨ e.status = 503) :
    (detect_objects model dec saveOk art0 bytes t).sinkInvoked = false ∧
      (detect_objects model dec saveOk art0 bytes t).artifact = art0 := by
  rcases detect_objects_error_cases model dec saveOk art0 bytes t e herr
    with ⟨hm, -⟩ | ⟨hr, -⟩ | ⟨hd, -⟩ | ⟨-, h500⟩
  · exact (detect_objects_error_early model dec saveOk art0 bytes t
      (Or.inl hm)).2
  · exact (detect_objects_error_early model dec saveOk art0 bytes t
      (Or.inr (Or.inl hr))).2
  · exact (detect_objects_error_early model dec saveOk art0 bytes t
      (Or.inr (Or.inr hd))).2
  · rcases hstatus with h | h <;> rw [h500] at h <;> cases h

/-- C9 witness: a 503 request (model not loaded) leaves the artifact
file untouched and never calls the sink. -/
theorem C9_failed_request_preserves_artifact_witness :
    ((detect_objects none decOk true (some art1) [] 1).result =
        .error ⟨503, "Model not loaded"⟩ ∧
        ((⟨503, "Model not loaded"⟩ : ApiError).status = 400 ∨
          (⟨503, "Model not loaded"⟩ : ApiError).status = 503)) ∧
      ((detect_objects none decOk true (some art1) [] 1).sinkInvoked =
          false ∧
        (detect_objects none decOk true (some art1) [] 1).artifact =
          some art1) :=
  ⟨⟨rfl, Or.inr rfl⟩,
    C9_failed_request_preserves_artifact none decOk true (some art1) [] 1
      ⟨503, "Model not loaded"⟩ rfl (Or.inr rfl)⟩

/-- C10: in every successful response the summary's key set is exactly
the set of labels occurring in the detection list, every count is at
least 1, and the counts sum to the number of detections. -/
theorem C10_summary_invariants (m : YOLOModel)
    (dec : ByteStream → Option PixelBuffer) (saveOk : Bool)
    (art0 : Option Artifact) (bytes : ByteStream) (t : ℚ)
    (resp : DetectResponse)
    (hok : (detect_objects (some m) dec saveOk art0 bytes t).result =
      .ok resp) :
    (∀ l, l ∈ resp.summary.map Prod.fst ↔
        l ∈ resp.detections.map Detection.label) ∧
      (∀ p ∈ resp.summary, 1 ≤ p.2) ∧
      (resp.summary.map Prod.snd).sum = resp.detections.length := by
  obtain ⟨-, -, img, -, hdets, hsum⟩ :=
    detect_objects_ok m dec saveOk art0 bytes t resp hok
  refine ⟨?_, ?_, ?_⟩
  · intro l
    rw [hsum, hdets, classCounts_mem_keys]
  · intro p hp
    rw [hsum] at hp
    exact classCounts_pos _ p hp
  · rw [hsum, hdets, classCounts_sum, List.length_map]

/-- C10 witness: the threshold-0 run has summary keys {person, dog},
all counts ≥ 1, and counts summing to its two detections. -/
theorem C10_summary_invariants_witness :
    ((detect_objects (some mdl) decOk true none [] 0).result =
        .ok respT0) ∧
      ("person" ∈ respT0.summary.map Prod.fst ↔
        "person" ∈ respT0.detections.map Detection.label) ∧
      (respT0.summary.map Prod.snd).sum = respT0.detections.length :=
  ⟨detect_run_t0,
    (C10_summary_invariants mdl decOk true none [] 0 respT0
      detect_run_t0).1 "person",
    (C10_summary_invariants mdl decOk true none [] 0 respT0
      detect_run_t0).2.2⟩

end YoloApi
